import Mathlib

/-!
Shallow embedding of the `cpu_input_boost` frequency-floor governor.

The repository holds two variants of the driver:
* a richer variant (powerHAL build) with three state bits
  {SCREEN_OFF, POWERHAL_BOOST, POWERHAL_MAX_BOOST}, two delayed-work
  timers, an atomic max-boost expiry deadline, a CPU-DMA-latency QoS
  request and CPU-bandwidth hysteresis hints;
* a simpler variant with only the SCREEN_OFF bit and no boost machinery.

Modelling conventions:
* jiffies/time are Nat in millisecond resolution (HZ = 1000, so
  `msecs_to_jiffies` is the identity); `time_after(a, b)` is `a > b`
  (wraparound abstracted away, as the spec treats deadlines as
  monotonic timestamps);
* each `delayed_work` is a single slot `Option Nat` holding the pending
  firing time (`mod_delayed_work` replaces it and reports whether it was
  pending); when the work fires, its worker runs with the slot cleared;
* `wake_up(&b->boost_waitq)` is modelled by incrementing a `woke`
  counter, so "the coordinator was woken by this call" is observable;
* the CAS retry loop of `__powerhal_boost_kick_max` linearizes: each
  completed call behaves as one atomic read-test-update at the jiffies
  value `now` of its successful attempt, so a concurrent history is a
  sequence of such atomic effects (modelled below as a list fold);
* uninitialized C locals (the `freq` variable of `get_min_freq` /
  `get_idle_freq` is only assigned when the policy's CPU is in
  `cpu_lp_mask`) are modelled by an explicit extra parameter holding the
  stack garbage that would otherwise be read.
-/

/-- CPUFREQ_ADJUST notifier action value (0 in this kernel). -/
def CPUFREQ_ADJUST : Nat := 0

/-- FB_EARLY_EVENT_BLANK notifier action value (0x10 in this kernel). -/
def FB_EARLY_EVENT_BLANK : Nat := 16

/-- FB_BLANK_UNBLANK blank level (0, fully unblanked). -/
def FB_BLANK_UNBLANK : Int := 0

/-- PM_QOS_CPU_DMA_LAT_DEFAULT_VALUE (2000 s in microseconds). -/
def PM_QOS_CPU_DMA_LAT_DEFAULT_VALUE : Int := 2000000000

/-- Module parameters of the richer variant: `idle_min_freq_lp`,
`boost_min_freq_lp` (param name `remove_input_boost_freq_lp`) and
`powerhal_boost_duration` (ms, 0 disables input boosting). -/
structure Params where
  idle_min_freq_lp : Nat
  boost_min_freq_lp : Nat
  powerhal_boost_duration : Nat
deriving DecidableEq

/-- A cpufreq policy as seen by the driver: the policy's CPU id, the
hardware minimum `cpuinfo.min_freq`, and the current `min` field the
notifier writes. -/
structure CpufreqPolicy where
  cpu : Nat
  cpuinfo_min_freq : Nat
  min : Nat
deriving DecidableEq

/-- The driver's state bitset {SCREEN_OFF, POWERHAL_BOOST,
POWERHAL_MAX_BOOST} of the richer variant. -/
structure BoostState where
  screen_off : Bool
  powerhal_boost : Bool
  powerhal_max_boost : Bool
deriving DecidableEq

/-- The richer variant's `struct boost_drv`: state bits, the atomic
max-boost expiry deadline, the two delayed-work slots (pending firing
time), and a counter of `wake_up(&b->boost_waitq)` calls. -/
structure BoostDrv where
  state : BoostState
  powerhal_max_boost_expires : Nat
  powerhal_unboost_pending : Option Nat
  powerhal_max_unboost_pending : Option Nat
  woke : Nat
deriving DecidableEq

/-- Side-effect sinks of the richer variant's policy-notifier bridge:
the CPU-DMA-latency QoS request value, the three CPUBW hysteresis
values, and whether schedtune boost of "top-app" is disabled. -/
structure Hints where
  pm_qos : Int
  hyst_trigger_count : Int
  hist_memory : Int
  hyst_length : Int
  schedtune_top_app_disabled : Bool
deriving DecidableEq

/-- `get_min_freq`: `freq` is assigned `boost_min_freq_lp` only when the
policy's CPU is in `cpu_lp_mask`; otherwise the C code reads `freq`
uninitialized, modelled by the `freq0` garbage parameter. Returns
`max(freq, policy->cpuinfo.min_freq)`. -/
def get_min_freq (p : Params) (cpu_lp_mask : Nat → Bool) (freq0 : Nat)
    (policy : CpufreqPolicy) : Nat :=
  let freq := if cpu_lp_mask policy.cpu then p.boost_min_freq_lp else freq0
  max freq policy.cpuinfo_min_freq

/-- `get_idle_freq`: same shape as `get_min_freq` with
`idle_min_freq_lp`, including the uninitialized-`freq` path. -/
def get_idle_freq (p : Params) (cpu_lp_mask : Nat → Bool) (freq0 : Nat)
    (policy : CpufreqPolicy) : Nat :=
  let freq := if cpu_lp_mask policy.cpu then p.idle_min_freq_lp else freq0
  max freq policy.cpuinfo_min_freq

/-- `__powerhal_boost_kick` (richer variant): return untouched if
SCREEN_OFF is set or `powerhal_boost_duration` is 0; else set
POWERHAL_BOOST, `mod_delayed_work` the unboost timer to
`now + duration`, and `wake_up` only when the timer was not already
pending (`mod_delayed_work` returned false). -/
def powerhal_boost_kick (p : Params) (now : Nat) (b : BoostDrv) : BoostDrv :=
  if b.state.screen_off then b
  else if p.powerhal_boost_duration = 0 then b
  else
    let b1 : BoostDrv :=
      { b with state := { b.state with powerhal_boost := true } }
    let pending := b1.powerhal_unboost_pending.isSome
    let b2 : BoostDrv :=
      { b1 with
        powerhal_unboost_pending := some (now + p.powerhal_boost_duration) }
    if pending then b2 else { b2 with woke := b2.woke + 1 }

/-- `__powerhal_boost_kick_max` (richer variant), with the CAS loop
linearized at the successful attempt's jiffies value `now`: return
untouched if SCREEN_OFF is set; skip (everything untouched) if
`time_after(curr_expires, new_expires)` where
`new_expires = now + duration_ms`; else write `new_expires` to the
deadline, set POWERHAL_MAX_BOOST, `mod_delayed_work` the max-unboost
timer to `new_expires`, and `wake_up` only if it was not pending. -/
def powerhal_boost_kick_max (now duration_ms : Nat) (b : BoostDrv) : BoostDrv :=
  if b.state.screen_off then b
  else
    let curr_expires := b.powerhal_max_boost_expires
    let new_expires := now + duration_ms
    if curr_expires > new_expires then b
    else
      let b1 : BoostDrv :=
        { b with powerhal_max_boost_expires := new_expires,
                 state := { b.state with powerhal_max_boost := true } }
      let pending := b1.powerhal_max_unboost_pending.isSome
      let b2 : BoostDrv :=
        { b1 with powerhal_max_unboost_pending := some new_expires }
      if pending then b2 else { b2 with woke := b2.woke + 1 }

/-- `powerhal_unboost_worker`: runs when the boost timer fires (slot no
longer pending); clears POWERHAL_BOOST and wakes the coordinator. -/
def powerhal_unboost_worker (b : BoostDrv) : BoostDrv :=
  { b with state := { b.state with powerhal_boost := false },
           powerhal_unboost_pending := none,
           woke := b.woke + 1 }

/-- `powerhal_max_unboost_worker`: runs when the max-boost timer fires;
clears POWERHAL_MAX_BOOST and wakes the coordinator. -/
def powerhal_max_unboost_worker (b : BoostDrv) : BoostDrv :=
  { b with state := { b.state with powerhal_max_boost := false },
           powerhal_max_unboost_pending := none,
           woke := b.woke + 1 }

/-- `cpu_notifier_cb` of the richer variant, as a pure function from
(state bits, action, policy, hint sinks) to the updated policy and
sinks. `freq0_min` / `freq0_idle` stand for the uninitialized `freq`
locals of `get_min_freq` / `get_idle_freq`. Mirrors the source: early
return unless CPUFREQ_ADJUST; screen-off branch returns the idle floor
with idle CPUBW hysteresis and schedtune top-app boost disabled; else
the max-boost branch drives the QoS request (43 or default), the boost
branch drives the hysteresis, and `policy->min = get_min_freq(policy)`
unconditionally. -/
def cpu_notifier_cb (p : Params) (cpu_lp_mask : Nat → Bool)
    (freq0_min freq0_idle : Nat) (st : BoostState) (action : Nat)
    (policy : CpufreqPolicy) (h : Hints) : CpufreqPolicy × Hints :=
  if action ≠ CPUFREQ_ADJUST then (policy, h)
  else if st.screen_off then
    ({ policy with min := get_idle_freq p cpu_lp_mask freq0_idle policy },
     { h with schedtune_top_app_disabled := true,
              hyst_trigger_count := 3,
              hist_memory := 20,
              hyst_length := 10 })
  else
    let h1 : Hints :=
      if st.powerhal_max_boost then
        { h with hyst_trigger_count := 0, hist_memory := 0,
                 hyst_length := 0, pm_qos := 43 }
      else
        { h with pm_qos := PM_QOS_CPU_DMA_LAT_DEFAULT_VALUE }
    let h2 : Hints :=
      if st.powerhal_boost then
        { h1 with hyst_trigger_count := 0, hist_memory := 0,
                  hyst_length := 0 }
      else
        { h1 with hyst_trigger_count := 3, hist_memory := 20,
                  hyst_length := 10 }
    ({ policy with min := get_min_freq p cpu_lp_mask freq0_min policy }, h2)

/-- `fb_notifier_cb` of the richer variant: ignore anything that is not
FB_EARLY_EVENT_BLANK; on FB_BLANK_UNBLANK re-enable schedtune top-app
boost and clear SCREEN_OFF (no wake-up in the source); on any other
blank level set SCREEN_OFF and wake the coordinator. The Bool is the
schedtune top-app-disabled flag. -/
def fb_notifier_cb (action : Nat) (blank : Int) (b : BoostDrv)
    (schedtune_top_app_disabled : Bool) : BoostDrv × Bool :=
  if action ≠ FB_EARLY_EVENT_BLANK then (b, schedtune_top_app_disabled)
  else if blank = FB_BLANK_UNBLANK then
    ({ b with state := { b.state with screen_off := false } }, false)
  else
    ({ b with state := { b.state with screen_off := true },
              woke := b.woke + 1 },
     schedtune_top_app_disabled)

/-- `cpu_input_boost_input_event` of the richer variant: ignores type,
code and value and calls `__powerhal_boost_kick`. -/
def cpu_input_boost_input_event (p : Params) (now : Nat)
    (ty code : Nat) (value : Int) (b : BoostDrv) : BoostDrv :=
  powerhal_boost_kick p now b

/-- The simpler variant's `struct boost_drv`: only the SCREEN_OFF bit
and the waitqueue wake counter. -/
structure BoostDrvSimple where
  screen_off : Bool
  woke : Nat
deriving DecidableEq

/-- `cpu_input_boost_input_event` of the simpler variant: its body only
reads `handle->handler->private` and performs no operation at all. -/
def cpu_input_boost_input_event_simple (ty code : Nat) (value : Int)
    (b : BoostDrvSimple) : BoostDrvSimple :=
  b

/-- What one pass of `cpu_boost_thread`'s loop does once the wait
predicate lets it through. -/
inductive ThreadAction where
  | recompute (newOldState : BoostState)
  | exitThread
deriving DecidableEq

/-- One iteration of `cpu_boost_thread` around
`wait_event(b->boost_waitq, (curr_state = READ_ONCE(b->state)) != old_state
|| (should_stop = kthread_should_stop()))`: the state-change disjunct is
evaluated first and short-circuits, so `should_stop` is only assigned
when the state matches `old_state`. `none` means the predicate is false
and the thread keeps sleeping. -/
def cpu_boost_thread_iter (curr old : BoostState)
    (kthread_stop_signal : Bool) : Option ThreadAction :=
  if curr ≠ old then some (ThreadAction.recompute curr)
  else if kthread_stop_signal then some ThreadAction.exitThread
  else none

/-- Resources registered by `cpu_input_boost_init`. -/
inductive InitResource where
  | pm_qos_req
  | cpu_notif
  | input_handle_reg
  | fb_notif
  | boost_thread
deriving DecidableEq

/-- Outcome of an init run: whether it succeeded, which registrations
are still in effect at return (in registration order), and the sequence
of unregistration calls it performed (in execution order). -/
structure InitOutcome where
  ok : Bool
  registered : List InitResource
  unwound : List InitResource
deriving DecidableEq

/-- `cpu_input_boost_init` of the richer variant, parameterized by
which registration steps succeed. Mirrors the source order:
`pm_qos_add_request` (unconditional), `cpufreq_register_notifier`,
`input_register_handler`, `fb_register_client`,
`kthread_run_perf_critical`; the failure labels unwind via
`unregister_fb_notif` → `unregister_handler` → `unregister_cpu_notif`
(which also does `pm_qos_remove_request`). A `cpufreq_register_notifier`
failure hits the plain `return ret` path, which removes nothing. -/
def cpu_input_boost_init (cpufreq_ok input_ok fb_ok thread_ok : Bool) :
    InitOutcome :=
  if !cpufreq_ok then
    { ok := false, registered := [InitResource.pm_qos_req], unwound := [] }
  else if !input_ok then
    { ok := false, registered := [],
      unwound := [InitResource.cpu_notif, InitResource.pm_qos_req] }
  else if !fb_ok then
    { ok := false, registered := [],
      unwound := [InitResource.input_handle_reg, InitResource.cpu_notif,
                  InitResource.pm_qos_req] }
  else if !thread_ok then
    { ok := false, registered := [],
      unwound := [InitResource.fb_notif, InitResource.input_handle_reg,
                  InitResource.cpu_notif, InitResource.pm_qos_req] }
  else
    { ok := true,
      registered := [InitResource.pm_qos_req, InitResource.cpu_notif,
                     InitResource.input_handle_reg, InitResource.fb_notif,
                     InitResource.boost_thread],
      unwound := [] }

/-- `cpu_input_boost_init` of the simpler variant: no QoS request; the
registration order is `cpufreq_register_notifier`,
`input_register_handler`, `fb_register_client`, `kthread_run`. -/
def cpu_input_boost_init_simple (cpufreq_ok input_ok fb_ok thread_ok : Bool) :
    InitOutcome :=
  if !cpufreq_ok then
    { ok := false, registered := [], unwound := [] }
  else if !input_ok then
    { ok := false, registered := [], unwound := [InitResource.cpu_notif] }
  else if !fb_ok then
    { ok := false, registered := [],
      unwound := [InitResource.input_handle_reg, InitResource.cpu_notif] }
  else if !thread_ok then
    { ok := false, registered := [],
      unwound := [InitResource.fb_notif, InitResource.input_handle_reg,
                  InitResource.cpu_notif] }
  else
    { ok := true,
      registered := [InitResource.cpu_notif, InitResource.input_handle_reg,
                     InitResource.fb_notif, InitResource.boost_thread],
      unwound := [] }

/-- Registrations completed by the simpler init before its first failing
step, in registration order. -/
def init_simple_completed (cpufreq_ok input_ok fb_ok : Bool) :
    List InitResource :=
  if !cpufreq_ok then []
  else if !input_ok then [InitResource.cpu_notif]
  else if !fb_ok then [InitResource.cpu_notif, InitResource.input_handle_reg]
  else [InitResource.cpu_notif, InitResource.input_handle_reg,
        InitResource.fb_notif]

/-- Registrations completed by the richer init before its first failing
step (the QoS request is added before anything can fail). -/
def init_completed (cpufreq_ok input_ok fb_ok : Bool) : List InitResource :=
  if !cpufreq_ok then [InitResource.pm_qos_req]
  else if !input_ok then [InitResource.pm_qos_req, InitResource.cpu_notif]
  else if !fb_ok then
    [InitResource.pm_qos_req, InitResource.cpu_notif,
     InitResource.input_handle_reg]
  else
    [InitResource.pm_qos_req, InitResource.cpu_notif,
     InitResource.input_handle_reg, InitResource.fb_notif]

/-- Sample parameter values used by concrete scenarios: idle floor
1094.4 MHz, base boost floor 768 MHz, boost duration 500 ms. -/
def sampleParams : Params :=
  { idle_min_freq_lp := 1094400, boost_min_freq_lp := 768000,
    powerhal_boost_duration := 500 }

/-- Sample low-power cluster mask: CPU 0 is the LP cluster's policy
CPU; CPU 4 (the performance cluster) is not in the mask. -/
def sampleLpMask : Nat → Bool := fun c => c == 0

/-- Sample LP-cluster policy with a 300 MHz hardware minimum. -/
def samplePolicyLp : CpufreqPolicy :=
  { cpu := 0, cpuinfo_min_freq := 300000, min := 300000 }

/-- Sample performance-cluster policy (CPU not in the LP mask). -/
def samplePolicyPerf : CpufreqPolicy :=
  { cpu := 4, cpuinfo_min_freq := 300000, min := 300000 }

/-- Sample hint sinks at their default values. -/
def sampleHints : Hints :=
  { pm_qos := PM_QOS_CPU_DMA_LAT_DEFAULT_VALUE, hyst_trigger_count := 3,
    hist_memory := 20, hyst_length := 10,
    schedtune_top_app_disabled := false }

/-- A freshly initialized driver: all bits clear, deadline 0, no timer
pending, no wake issued. -/
def freshDrv : BoostDrv :=
  { state := { screen_off := false, powerhal_boost := false,
               powerhal_max_boost := false },
    powerhal_max_boost_expires := 0,
    powerhal_unboost_pending := none,
    powerhal_max_unboost_pending := none,
    woke := 0 }

/-- A driver whose boost timer is already pending (firing time 5) with
the screen on. -/
def pendingDrv : BoostDrv :=
  { freshDrv with powerhal_unboost_pending := some 5 }

/-- A driver with the SCREEN_OFF bit set and nothing else. -/
def screenOffDrv : BoostDrv :=
  { freshDrv with state := { freshDrv.state with screen_off := true } }

/-- Hint sinks whose QoS request last held the max-boost value 43. -/
def sampleHints43 : Hints :=
  { sampleHints with pm_qos := 43 }

/-- A state with only the input-boost bit set (used as an observed state
that differs from the last-acted one). -/
def stBoostOnly : BoostState :=
  { screen_off := false, powerhal_boost := true, powerhal_max_boost := false }

/-- The all-clear state. -/
def stClear : BoostState :=
  { screen_off := false, powerhal_boost := false, powerhal_max_boost := false }

/-! ## Helper lemmas -/

/-- One completed `kick_max` never lowers the expiry deadline. -/
theorem powerhal_boost_kick_max_expires_mono (now d : Nat) (b : BoostDrv) :
    b.powerhal_max_boost_expires ≤
      (powerhal_boost_kick_max now d b).powerhal_max_boost_expires := by
  unfold powerhal_boost_kick_max
  by_cases hs : b.state.screen_off = true
  · simp [hs]
  · simp only [hs, if_false, Bool.false_eq_true]
    by_cases hgt : b.powerhal_max_boost_expires > now + d
    · simp [hgt]
    · simp only [hgt, if_false]
      by_cases hp : b.powerhal_max_unboost_pending.isSome
      · simp [hp]; omega
      · simp [hp]; omega

/-- Any sequence of completed `kick_max` calls (arbitrary interleaving
of concurrent callers, linearized by the CAS) never lowers the expiry
deadline. -/
theorem powerhal_boost_kick_max_foldl_mono (ops : List (Nat × Nat))
    (b : BoostDrv) :
    b.powerhal_max_boost_expires ≤
      (ops.foldl (fun x q => powerhal_boost_kick_max q.fst q.snd x)
        b).powerhal_max_boost_expires := by
  induction ops generalizing b with
  | nil => exact Nat.le_refl _
  | cons q rest ih =>
      exact Nat.le_trans (powerhal_boost_kick_max_expires_mono q.fst q.snd b)
        (ih (powerhal_boost_kick_max q.fst q.snd b))

/-- With the screen on, a completed `kick_max` leaves the deadline at
`max(current, now + duration)`. -/
theorem powerhal_boost_kick_max_expires_eq (now d : Nat) (b : BoostDrv)
    (hs : b.state.screen_off = false) :
    (powerhal_boost_kick_max now d b).powerhal_max_boost_expires
      = max b.powerhal_max_boost_expires (now + d) := by
  unfold powerhal_boost_kick_max
  simp only [hs, Bool.false_eq_true, if_false]
  by_cases hgt : b.powerhal_max_boost_expires > now + d
  · simp [hgt]; omega
  · simp only [hgt, if_false]
    by_cases hp : b.powerhal_max_unboost_pending.isSome
    · simp [hp]; omega
    · simp [hp]; omega

/-- With the screen on and a strictly longer boost in effect, a
completed `kick_max` leaves the driver completely untouched. -/
theorem powerhal_boost_kick_max_skip (now d : Nat) (b : BoostDrv)
    (hs : b.state.screen_off = false)
    (hgt : b.powerhal_max_boost_expires > now + d) :
    powerhal_boost_kick_max now d b = b := by
  unfold powerhal_boost_kick_max
  simp [hs, hgt]

/-- With the screen on and no strictly longer boost in effect, a
completed `kick_max` sets the max-boost bit and rearms its timer for the
new deadline. -/
theorem powerhal_boost_kick_max_extend (now d : Nat) (b : BoostDrv)
    (hs : b.state.screen_off = false)
    (hle : b.powerhal_max_boost_expires ≤ now + d) :
    (powerhal_boost_kick_max now d b).state.powerhal_max_boost = true
  ∧ (powerhal_boost_kick_max now d b).powerhal_max_unboost_pending
      = some (now + d) := by
  unfold powerhal_boost_kick_max
  have hgt : ¬ b.powerhal_max_boost_expires > now + d := by omega
  simp only [hs, Bool.false_eq_true, if_false, hgt]
  by_cases hp : b.powerhal_max_unboost_pending.isSome
  · simp [hp]
  · simp [hp]

/-! ## Claim theorems -/

/-- Claim C1: with screen-off clear, a completed `kick_max(duration)`
CAS-extends the expiry deadline to `max(current, now + duration)`; the
deadline never decreases, even across an arbitrary interleaving of
concurrent completed `kick_max` calls; the max-boost bit is set and its
timer rearmed for the new deadline exactly when no strictly longer boost
is in effect, and when a strictly longer boost is in effect the call
leaves the deadline, state bits and pending timer untouched; concretely,
`kick_max(1000)` at t=0 followed by `kick_max(200)` at t=100 leaves the
max-unboost timer at t=1000 (not t=300), whose firing clears max-boost
at t=1000. -/
theorem powerhal_boost_kick_max_claim (b : BoostDrv) (now duration_ms : Nat)
    (hs : b.state.screen_off = false) :
    ((powerhal_boost_kick_max now duration_ms b).powerhal_max_boost_expires
        = max b.powerhal_max_boost_expires (now + duration_ms))
  ∧ (b.powerhal_max_boost_expires ≤
        (powerhal_boost_kick_max now duration_ms b).powerhal_max_boost_expires)
  ∧ (b.powerhal_max_boost_expires > now + duration_ms →
        powerhal_boost_kick_max now duration_ms b = b)
  ∧ (b.powerhal_max_boost_expires ≤ now + duration_ms →
        (powerhal_boost_kick_max now duration_ms b).state.powerhal_max_boost
          = true
      ∧ (powerhal_boost_kick_max now duration_ms b).powerhal_max_unboost_pending
          = some (now + duration_ms))
  ∧ (∀ (ops : List (Nat × Nat)) (x : BoostDrv),
        x.powerhal_max_boost_expires ≤
          (ops.foldl (fun y q => powerhal_boost_kick_max q.fst q.snd y)
            x).powerhal_max_boost_expires)
  ∧ ((powerhal_boost_kick_max 100 200
        (powerhal_boost_kick_max 0 1000 freshDrv)).powerhal_max_unboost_pending
        = some 1000
    ∧ (powerhal_boost_kick_max 100 200
        (powerhal_boost_kick_max 0 1000 freshDrv)).powerhal_max_boost_expires
        = 1000
    ∧ (powerhal_max_unboost_worker (powerhal_boost_kick_max 100 200
        (powerhal_boost_kick_max 0 1000
          freshDrv))).state.powerhal_max_boost = false) :=
  ⟨powerhal_boost_kick_max_expires_eq now duration_ms b hs,
   powerhal_boost_kick_max_expires_mono now duration_ms b,
   fun hgt => powerhal_boost_kick_max_skip now duration_ms b hs hgt,
   fun hle => powerhal_boost_kick_max_extend now duration_ms b hs hle,
   fun ops x => powerhal_boost_kick_max_foldl_mono ops x,
   by decide, by decide, by decide⟩

/-- Witness for C1 at a concrete input: the fresh driver has the screen
on, and `kick_max(1000)` at t=0 extends the deadline to
`max(0, 0 + 1000)`. -/
theorem powerhal_boost_kick_max_claim_witness :
    freshDrv.state.screen_off = false
  ∧ (powerhal_boost_kick_max 0 1000 freshDrv).powerhal_max_boost_expires
      = max freshDrv.powerhal_max_boost_expires (0 + 1000) :=
  ⟨rfl, (powerhal_boost_kick_max_claim freshDrv 0 1000 rfl).1⟩

/-- Claim C2: with the screen-off bit set on a CPUFREQ_ADJUST
invocation, the bridge's result is independent of the boost and
max-boost bits (their branches are never reached), the hint sinks keep
their QoS value and take the idle CPUBW values, and on the low-power
cluster the floor is `max(idle_min_freq_lp, cpuinfo.min_freq)`; but on a
policy outside the LP mask the floor is computed from the uninitialized
`freq` local, shown by two garbage values yielding two different floors
at the concrete failing input. -/
theorem cpu_notifier_cb_screen_off_claim (p : Params)
    (cpu_lp_mask : Nat → Bool) (f0m f0i : Nat) (bb mb : Bool)
    (policy : CpufreqPolicy) (h : Hints) :
    (cpu_notifier_cb p cpu_lp_mask f0m f0i
        { screen_off := true, powerhal_boost := bb, powerhal_max_boost := mb }
        CPUFREQ_ADJUST policy h
      = cpu_notifier_cb p cpu_lp_mask f0m f0i
          { screen_off := true, powerhal_boost := false,
            powerhal_max_boost := false }
          CPUFREQ_ADJUST policy h)
  ∧ ((cpu_notifier_cb p cpu_lp_mask f0m f0i
        { screen_off := true, powerhal_boost := bb, powerhal_max_boost := mb }
        CPUFREQ_ADJUST policy h).snd
      = { h with schedtune_top_app_disabled := true, hyst_trigger_count := 3,
                 hist_memory := 20, hyst_length := 10 })
  ∧ (cpu_lp_mask policy.cpu = true →
      ((cpu_notifier_cb p cpu_lp_mask f0m f0i
          { screen_off := true, powerhal_boost := bb,
            powerhal_max_boost := mb }
          CPUFREQ_ADJUST policy h).fst).min
        = max p.idle_min_freq_lp policy.cpuinfo_min_freq)
  ∧ (((cpu_notifier_cb sampleParams sampleLpMask 0 0
        { screen_off := true, powerhal_boost := false,
          powerhal_max_boost := false }
        CPUFREQ_ADJUST samplePolicyPerf sampleHints).fst).min = 300000
    ∧ ((cpu_notifier_cb sampleParams sampleLpMask 0 999999999
        { screen_off := true, powerhal_boost := false,
          powerhal_max_boost := false }
        CPUFREQ_ADJUST samplePolicyPerf sampleHints).fst).min = 999999999) := by
  refine ⟨rfl, rfl, fun hm => ?_, by decide, by decide⟩
  show (get_idle_freq p cpu_lp_mask f0i policy) = _
  unfold get_idle_freq
  simp [hm]

/-- Witness for C2: on the LP-cluster policy with screen-off set and
both boost bits set, the floor is `max(idle_min_freq_lp, 300000)`. -/
theorem cpu_notifier_cb_screen_off_claim_witness :
    sampleLpMask samplePolicyLp.cpu = true
  ∧ ((cpu_notifier_cb sampleParams sampleLpMask 0 0
        { screen_off := true, powerhal_boost := true,
          powerhal_max_boost := true }
        CPUFREQ_ADJUST samplePolicyLp sampleHints).fst).min
      = max sampleParams.idle_min_freq_lp samplePolicyLp.cpuinfo_min_freq :=
  ⟨rfl,
   (cpu_notifier_cb_screen_off_claim sampleParams sampleLpMask 0 0 true true
      samplePolicyLp sampleHints).2.2.1 rfl⟩

/-- Claim C10: whenever the bridge runs with the screen-off bit set (any
action), the CPU-DMA-latency QoS request keeps whatever value it last
had; with the screen on and a CPUFREQ_ADJUST action it becomes 43 when
max-boost is set and the default value when max-boost is clear. -/
theorem cpu_notifier_cb_pm_qos_claim (p : Params)
    (cpu_lp_mask : Nat → Bool) (f0m f0i : Nat) (st : BoostState)
    (action : Nat) (policy : CpufreqPolicy) (h : Hints) :
    (st.screen_off = true →
      ((cpu_notifier_cb p cpu_lp_mask f0m f0i st action policy h).snd).pm_qos
        = h.pm_qos)
  ∧ (st.screen_off = false → st.powerhal_max_boost = true →
      action = CPUFREQ_ADJUST →
      ((cpu_notifier_cb p cpu_lp_mask f0m f0i st action policy h).snd).pm_qos
        = 43)
  ∧ (st.screen_off = false → st.powerhal_max_boost = false →
      action = CPUFREQ_ADJUST →
      ((cpu_notifier_cb p cpu_lp_mask f0m f0i st action policy h).snd).pm_qos
        = PM_QOS_CPU_DMA_LAT_DEFAULT_VALUE) := by
  refine ⟨fun hs => ?_, fun hs hmb ha => ?_, fun hs hmb ha => ?_⟩
  · unfold cpu_notifier_cb
    by_cases hA : action = CPUFREQ_ADJUST
    · simp [hA, hs]
    · simp [hA]
  · subst ha
    unfold cpu_notifier_cb
    simp only [ne_eq, not_true_eq_false, if_false, hs, Bool.false_eq_true,
      hmb, if_true]
    by_cases hb : st.powerhal_boost = true
    · simp [hb]
    · simp [hb]
  · subst ha
    unfold cpu_notifier_cb
    simp only [ne_eq, not_true_eq_false, if_false, hs, Bool.false_eq_true,
      hmb, if_true]
    by_cases hb : st.powerhal_boost = true
    · simp [hb]
    · simp [hb]

/-- Witness for C10: the screen turns off while the QoS request last
held the max-boost value 43 and the max-boost bit is still set; after
the bridge runs, the request still holds 43. -/
theorem cpu_notifier_cb_pm_qos_claim_witness :
    (({ screen_off := true, powerhal_boost := false,
        powerhal_max_boost := true } : BoostState).screen_off = true)
  ∧ ((cpu_notifier_cb sampleParams sampleLpMask 0 0
        { screen_off := true, powerhal_boost := false,
          powerhal_max_boost := true }
        CPUFREQ_ADJUST samplePolicyLp sampleHints43).snd).pm_qos
      = sampleHints43.pm_qos :=
  ⟨rfl,
   (cpu_notifier_cb_pm_qos_claim sampleParams sampleLpMask 0 0
      { screen_off := true, powerhal_boost := false,
        powerhal_max_boost := true }
      CPUFREQ_ADJUST samplePolicyLp sampleHints43).1 rfl⟩

/-- Counterexample to C5: Scenario A's configuration (base boost floor
768 MHz, cluster minimum 300 kHz-units 300000) with screen on and no
boost bit set — including the exact state reached 500 ms after a single
`kick()` once the unboost worker has run — yields floor 768000, not the
cluster minimum 300000. -/
theorem screen_on_floor_counterexample :
    (powerhal_unboost_worker
        (powerhal_boost_kick sampleParams 0 freshDrv)).state
      = { screen_off := false, powerhal_boost := false,
          powerhal_max_boost := false }
  ∧ ((cpu_notifier_cb sampleParams sampleLpMask 0 0
        { screen_off := false, powerhal_boost := false,
          powerhal_max_boost := false }
        CPUFREQ_ADJUST samplePolicyLp sampleHints).fst).min = 768000
  ∧ (768000 : Nat) ≠ samplePolicyLp.cpuinfo_min_freq := by
  refine ⟨by decide, by decide, by decide⟩

/-- Claim C5 as amended: with the screen on and both boost bits clear
(CPUFREQ_ADJUST invocation, LP cluster), the floor is
`max(boost_min_freq_lp, cpuinfo.min_freq)` — the base-boost floor, not
the cluster minimum — while the hint sinks take the idle CPUBW values
and the default QoS value; so in Scenario A the floor is 768000 both
immediately after `kick()` at t=0 and after the boost expires at
t=500 ms. -/
theorem cpu_notifier_cb_screen_on_floor_claim (p : Params)
    (cpu_lp_mask : Nat → Bool) (f0m f0i : Nat) (st : BoostState)
    (policy : CpufreqPolicy) (h : Hints)
    (hs : st.screen_off = false) (hb : st.powerhal_boost = false)
    (hmb : st.powerhal_max_boost = false)
    (hlp : cpu_lp_mask policy.cpu = true) :
    ((cpu_notifier_cb p cpu_lp_mask f0m f0i st CPUFREQ_ADJUST policy
        h).fst).min
      = max p.boost_min_freq_lp policy.cpuinfo_min_freq
  ∧ (cpu_notifier_cb p cpu_lp_mask f0m f0i st CPUFREQ_ADJUST policy h).snd
      = { h with pm_qos := PM_QOS_CPU_DMA_LAT_DEFAULT_VALUE,
                 hyst_trigger_count := 3, hist_memory := 20,
                 hyst_length := 10 }
  ∧ ((cpu_notifier_cb sampleParams sampleLpMask 0 0
        (powerhal_boost_kick sampleParams 0 freshDrv).state
        CPUFREQ_ADJUST samplePolicyLp sampleHints).fst).min = 768000
  ∧ ((cpu_notifier_cb sampleParams sampleLpMask 0 0
        (powerhal_unboost_worker
          (powerhal_boost_kick sampleParams 0 freshDrv)).state
        CPUFREQ_ADJUST samplePolicyLp sampleHints).fst).min = 768000 := by
  refine ⟨?_, ?_, by decide, by decide⟩
  · unfold cpu_notifier_cb
    simp only [ne_eq, not_true_eq_false, if_false, hs, Bool.false_eq_true,
      hmb, hb, if_true]
    show (get_min_freq p cpu_lp_mask f0m policy) = _
    unfold get_min_freq
    simp [hlp]
  · unfold cpu_notifier_cb
    simp [hs, hmb, hb]

/-- Witness for C5's amended claim at Scenario A's concrete values. -/
theorem cpu_notifier_cb_screen_on_floor_claim_witness :
    stClear.screen_off = false
  ∧ ((cpu_notifier_cb sampleParams sampleLpMask 0 0 stClear CPUFREQ_ADJUST
        samplePolicyLp sampleHints).fst).min
      = max sampleParams.boost_min_freq_lp samplePolicyLp.cpuinfo_min_freq :=
  ⟨rfl,
   (cpu_notifier_cb_screen_on_floor_claim sampleParams sampleLpMask 0 0
      stClear samplePolicyLp sampleHints rfl rfl rfl rfl).1⟩

/-- Counterexample to C4: a `kick()` with the screen on and a nonzero
configured duration, issued while the boost timer is already pending, is
not a no-op (it sets the bit and rearms the timer to fire 500 ms after
the call) yet does not wake the coordinator: the wake counter is
unchanged. -/
theorem powerhal_boost_kick_wake_counterexample :
    pendingDrv.state.screen_off = false
  ∧ sampleParams.powerhal_boost_duration ≠ 0
  ∧ pendingDrv.powerhal_unboost_pending = some 5
  ∧ (powerhal_boost_kick sampleParams 10 pendingDrv).state.powerhal_boost
      = true
  ∧ (powerhal_boost_kick sampleParams 10 pendingDrv).powerhal_unboost_pending
      = some 510
  ∧ (powerhal_boost_kick sampleParams 10 pendingDrv).woke = pendingDrv.woke :=
  ⟨rfl, by decide, rfl, by decide, by decide, by decide⟩

/-- Claim C4 as amended: `kick()` is a no-op (driver untouched) when the
screen-off bit is set or the configured duration is 0; otherwise it sets
the boost bit, rearms the single-slot boost timer to fire the configured
duration after the call (replacing any pending firing), leaves the other
bits, deadline and max-boost timer alone, and wakes the coordinator
exactly when the boost timer was not already pending (a pending timer
means the bit was already set, so the observed state is unchanged). -/
theorem powerhal_boost_kick_claim (p : Params) (now : Nat) (b : BoostDrv) :
    (b.state.screen_off = true → powerhal_boost_kick p now b = b)
  ∧ (p.powerhal_boost_duration = 0 → powerhal_boost_kick p now b = b)
  ∧ (b.state.screen_off = false → p.powerhal_boost_duration ≠ 0 →
      (powerhal_boost_kick p now b).state
          = { b.state with powerhal_boost := true }
      ∧ (powerhal_boost_kick p now b).powerhal_unboost_pending
          = some (now + p.powerhal_boost_duration)
      ∧ (powerhal_boost_kick p now b).powerhal_max_boost_expires
          = b.powerhal_max_boost_expires
      ∧ (powerhal_boost_kick p now b).powerhal_max_unboost_pending
          = b.powerhal_max_unboost_pending
      ∧ (powerhal_boost_kick p now b).woke
          = (if b.powerhal_unboost_pending.isSome then b.woke
             else b.woke + 1)) := by
  refine ⟨fun hs => ?_, fun hd => ?_, fun hs hd => ?_⟩
  · unfold powerhal_boost_kick
    simp [hs]
  · unfold powerhal_boost_kick
    by_cases hs : b.state.screen_off = true
    · simp [hs]
    · simp [hs, hd]
  · unfold powerhal_boost_kick
    simp only [hs, Bool.false_eq_true, if_false, hd, if_true]
    by_cases hp : b.powerhal_unboost_pending.isSome
    · simp [hp]
    · simp [hp]

/-- Witness for C4's amended claim: a kick on the fresh driver (no
pending timer) sets the bit, arms the timer for t=500 and wakes. -/
theorem powerhal_boost_kick_claim_witness :
    freshDrv.state.screen_off = false
  ∧ (powerhal_boost_kick sampleParams 0 freshDrv).state
      = { freshDrv.state with powerhal_boost := true } :=
  ⟨rfl,
   ((powerhal_boost_kick_claim sampleParams 0 freshDrv).2.2 rfl
      (by decide)).1⟩

/-- Counterexample to C6: an early-blank event with blank level
FB_BLANK_UNBLANK delivered while the screen-off bit is set clears the
bit but leaves the wake counter unchanged — the unblank branch has no
`wake_up` call, unlike the blank branch. -/
theorem fb_unblank_wake_counterexample :
    screenOffDrv.state.screen_off = true
  ∧ ((fb_notifier_cb FB_EARLY_EVENT_BLANK 0 screenOffDrv
        true).fst).state.screen_off = false
  ∧ ((fb_notifier_cb FB_EARLY_EVENT_BLANK 0 screenOffDrv true).fst).woke
      = screenOffDrv.woke :=
  ⟨rfl, by decide, by decide⟩

/-- Claim C6 as amended: on an early-blank event, a transition to
fully-unblanked clears the screen-off bit (and re-enables schedtune
top-app boost) without waking the coordinator, while a transition to any
other blank level sets screen-off and wakes the coordinator; any other
action leaves everything untouched. -/
theorem fb_notifier_cb_claim (action : Nat) (blank : Int) (b : BoostDrv)
    (sd : Bool) :
    (action ≠ FB_EARLY_EVENT_BLANK →
      fb_notifier_cb action blank b sd = (b, sd))
  ∧ (blank = FB_BLANK_UNBLANK →
      fb_notifier_cb FB_EARLY_EVENT_BLANK blank b sd
        = ({ b with state := { b.state with screen_off := false } }, false))
  ∧ (blank ≠ FB_BLANK_UNBLANK →
      fb_notifier_cb FB_EARLY_EVENT_BLANK blank b sd
        = ({ b with state := { b.state with screen_off := true },
                    woke := b.woke + 1 }, sd)) := by
  refine ⟨fun ha => ?_, fun hb => ?_, fun hb => ?_⟩
  · unfold fb_notifier_cb
    simp [ha]
  · unfold fb_notifier_cb
    simp [hb]
  · unfold fb_notifier_cb
    simp [hb]

/-- Witness for C6's amended claim: a fully-unblanked early event on the
screen-off driver clears the bit without touching the wake counter. -/
theorem fb_notifier_cb_claim_witness :
    (0 : Int) = FB_BLANK_UNBLANK
  ∧ fb_notifier_cb FB_EARLY_EVENT_BLANK 0 screenOffDrv true
      = ({ screenOffDrv with
            state := { screenOffDrv.state with screen_off := false } },
         false) :=
  ⟨rfl, (fb_notifier_cb_claim FB_EARLY_EVENT_BLANK 0 screenOffDrv true).2.1
          rfl⟩

/-- Counterexample to C7: the coordinator woken with the stop signal
raised while the observed state also differs from the last-acted value
performs a recompute (the state-change disjunct short-circuits before
`kthread_should_stop` is consulted) instead of exiting. -/
theorem cpu_boost_thread_stop_counterexample :
    stBoostOnly ≠ stClear
  ∧ cpu_boost_thread_iter stBoostOnly stClear true
      = some (ThreadAction.recompute stBoostOnly)
  ∧ cpu_boost_thread_iter stBoostOnly stClear true
      ≠ some ThreadAction.exitThread :=
  ⟨by decide, by decide, by decide⟩

/-- Claim C7 as amended: the wait predicate evaluates the state-change
disjunct first, so a wake with the observed state differing from the
last-acted value always yields one more recompute, even with the stop
signal raised; the thread exits (without recompute) exactly when it is
woken with the state equal to the last-acted value and the stop signal
raised, and keeps sleeping otherwise. -/
theorem cpu_boost_thread_iter_claim (curr old : BoostState) (stop : Bool) :
    (curr ≠ old →
      cpu_boost_thread_iter curr old stop
        = some (ThreadAction.recompute curr))
  ∧ (curr = old → stop = true →
      cpu_boost_thread_iter curr old stop = some ThreadAction.exitThread)
  ∧ (curr = old → stop = false →
      cpu_boost_thread_iter curr old stop = none) := by
  refine ⟨fun hne => ?_, fun he hstop => ?_, fun he hstop => ?_⟩
  · unfold cpu_boost_thread_iter
    simp [hne]
  · unfold cpu_boost_thread_iter
    simp [he, hstop]
  · unfold cpu_boost_thread_iter
    simp [he, hstop]

/-- Witness for C7's amended claim: woken with an unchanged state and
the stop signal raised, the thread exits without a recompute. -/
theorem cpu_boost_thread_iter_claim_witness :
    stClear = stClear
  ∧ cpu_boost_thread_iter stClear stClear true
      = some ThreadAction.exitThread :=
  ⟨rfl, (cpu_boost_thread_iter_claim stClear stClear true).2.1 rfl rfl⟩

/-- Counterexample to C3: in the simpler variant, a concrete event
(EV_KEY=1, code 30, value 1) from a matched device leaves the driver
completely untouched — the handler body performs no boost-kick at all —
whereas the repository's boost-kick operation does change a screen-on
driver at that same instant, so the handler does not invoke it. -/
theorem input_event_stub_counterexample :
    cpu_input_boost_input_event_simple 1 30 1 { screen_off := false, woke := 0 }
      = { screen_off := false, woke := 0 }
  ∧ cpu_input_boost_input_event sampleParams 0 1 30 1 freshDrv ≠ freshDrv :=
  ⟨rfl, by decide⟩

/-- Claim C3 as amended: in the richer variant every event from a
matched device, regardless of type, code and value, invokes exactly the
boost-kick operation of the external kick entry point; in the simpler
variant the handler ignores every event and performs no operation. -/
theorem input_event_kick_claim :
    (∀ (p : Params) (now ty code : Nat) (value : Int) (b : BoostDrv),
      cpu_input_boost_input_event p now ty code value b
        = powerhal_boost_kick p now b)
  ∧ (∀ (ty code : Nat) (value : Int) (d : BoostDrvSimple),
      cpu_input_boost_input_event_simple ty code value d = d) :=
  ⟨fun _ _ _ _ _ _ => rfl, fun _ _ _ _ => rfl⟩

/-- Claim C8: `get_min_freq` and `get_idle_freq` always return a value
at least the policy's `cpuinfo.min_freq` (no failure path), but on a
policy whose CPU is outside `cpu_lp_mask` the result depends on the
uninitialized `freq` local: two different stack-garbage values give two
different floors at the concrete failing input (CPU 4, hardware minimum
300000). -/
theorem get_freq_uninit_claim :
    (∀ (p : Params) (cpu_lp_mask : Nat → Bool) (freq0 : Nat)
        (policy : CpufreqPolicy),
      policy.cpuinfo_min_freq ≤ get_min_freq p cpu_lp_mask freq0 policy)
  ∧ (∀ (p : Params) (cpu_lp_mask : Nat → Bool) (freq0 : Nat)
        (policy : CpufreqPolicy),
      policy.cpuinfo_min_freq ≤ get_idle_freq p cpu_lp_mask freq0 policy)
  ∧ get_min_freq sampleParams sampleLpMask 0 samplePolicyPerf = 300000
  ∧ get_min_freq sampleParams sampleLpMask 999999999 samplePolicyPerf
      = 999999999
  ∧ get_idle_freq sampleParams sampleLpMask 0 samplePolicyPerf
      ≠ get_idle_freq sampleParams sampleLpMask 999999999 samplePolicyPerf :=
  ⟨fun p m f0 policy => Nat.le_max_right _ _,
   fun p m f0 policy => Nat.le_max_right _ _,
   by decide, by decide, by decide⟩

/-- Claim C9: the simpler variant's init unwinds exactly the previously
completed registrations in strict reverse order on every failure,
leaving none registered; the richer variant does the same for failures
after the policy-notifier registration (its unwind chain ends with
`pm_qos_remove_request`), but when the policy-notifier registration
itself fails it returns through the plain `return ret` path with the
CPU-DMA-latency QoS request still registered and nothing unwound. -/
theorem cpu_input_boost_init_unwind_claim :
    (∀ c i f t : Bool,
      (cpu_input_boost_init_simple c i f t).registered
          = (if c && i && f && t then
              [InitResource.cpu_notif, InitResource.input_handle_reg,
               InitResource.fb_notif, InitResource.boost_thread]
             else [])
        ∧ (cpu_input_boost_init_simple c i f t).unwound
          = (if c && i && f && t then []
             else (init_simple_completed c i f).reverse))
  ∧ (∀ i f t : Bool,
      (cpu_input_boost_init true i f t).registered
          = (if i && f && t then
              [InitResource.pm_qos_req, InitResource.cpu_notif,
               InitResource.input_handle_reg, InitResource.fb_notif,
               InitResource.boost_thread]
             else [])
        ∧ (cpu_input_boost_init true i f t).unwound
          = (if i && f && t then []
             else (init_completed true i f).reverse))
  ∧ cpu_input_boost_init false true true true
      = { ok := false, registered := [InitResource.pm_qos_req],
          unwound := [] } := by
  refine ⟨fun c i f t => ?_, fun i f t => ?_, by decide⟩
  · cases c <;> cases i <;> cases f <;> cases t <;>
      exact ⟨by decide, by decide⟩
  · cases i <;> cases f <;> cases t <;> exact ⟨by decide, by decide⟩
